import Mathlib

/-!
sps30-exporter: shallow embedding and verification.

A shallow embedding of `src/main.rs` of the sps30-exporter repository: a
process that polls an SPS30 particulate sensor over serial, caches the latest
reading in a `RwLock<Option<Measurement>>` shared with two warp HTTP routes
(`/json` and `/metrics`), and tracks two atomic error counters.

`f32` sensor values are only ever moved, never computed on, so we model them
as exact rationals (`Val := ℚ`); all other scalar state is `Nat`.
-/

namespace SPS30

/-- Sensor values (`f32` in the source) are inert data here: the program
moves them between the ten-element read result, the `Measurement` struct,
JSON output and metrics lines, without arithmetic. -/
abbrev Val := ℚ

/-- Struct `MassConcentration` (main.rs lines 43-56): PM1.0/PM2.5/PM4/PM10 mass
concentrations in μg/m3. -/
structure MassConcentration where
  pm1 : Val
  pm25 : Val
  pm4 : Val
  pm10 : Val
deriving Repr, DecidableEq

/-- Struct `NumberConcentration` (main.rs lines 58-74): PM0.5/PM1.0/PM2.5/PM4/PM10
number concentrations in 1/cm3. -/
structure NumberConcentration where
  pm05 : Val
  pm1 : Val
  pm25 : Val
  pm4 : Val
  pm10 : Val
deriving Repr, DecidableEq

/-- Struct `Measurement` (main.rs lines 76-83). -/
structure Measurement where
  mass : MassConcentration
  number : NumberConcentration
  typical_particle_size : Val
deriving Repr, DecidableEq

/-- Function `Measurement::from_array` (main.rs lines 85-104): fixed-position decoding
of the ten-value series returned by `read_measurement`. -/
def Measurement.from_array (arr : Fin 10 → Val) : Measurement :=
  { mass :=
      { pm1 := arr 0
        pm25 := arr 1
        pm4 := arr 2
        pm10 := arr 3 }
    number :=
      { pm05 := arr 4
        pm1 := arr 5
        pm25 := arr 6
        pm4 := arr 7
        pm10 := arr 8 }
    typical_particle_size := arr 9 }

/-- The fragment of JSON needed for the `/json` route: serde_json values
produced by `warp::reply::json` on `Option<Measurement>`. -/
inductive Json where
  | null : Json
  | num (v : Val) : Json
  | obj (fields : List (String × Json)) : Json
deriving Repr

/-- Serialization derived on `MassConcentration`: field names are the
Rust field identifiers, in declaration order. -/
def MassConcentration.toJson (m : MassConcentration) : Json :=
  .obj [("pm1", .num m.pm1), ("pm25", .num m.pm25),
        ("pm4", .num m.pm4), ("pm10", .num m.pm10)]

/-- Serialization derived on `NumberConcentration`. -/
def NumberConcentration.toJson (n : NumberConcentration) : Json :=
  .obj [("pm05", .num n.pm05), ("pm1", .num n.pm1), ("pm25", .num n.pm25),
        ("pm4", .num n.pm4), ("pm10", .num n.pm10)]

/-- Serialization derived on `Measurement`: nested objects, keys are
the Rust field identifiers (`mass`, `number`, `typical_particle_size`). -/
def Measurement.toJson (m : Measurement) : Json :=
  .obj [("mass", m.mass.toJson), ("number", m.number.toJson),
        ("typical_particle_size", .num m.typical_particle_size)]

/-- Top-level keys of a JSON object. -/
def Json.keys : Json → List String
  | .obj fields => fields.map Prod.fst
  | _ => []

/-- Result type of `RwLock::read()`: `Ok(guard)` or `Err(PoisonError)`. -/
inductive LockRead (α : Type) where
  | ok (a : α) : LockRead α
  | poisoned : LockRead α
deriving Repr, DecidableEq

/-- The `/json` warp handler (main.rs lines 247-252). The guard result is
`unwrap`ped, so a poisoned lock panics in the handler before any response is
produced; we model the panic as `none`. Otherwise: `Some(r)` serializes the
measurement, `None` yields the JSON `null` literal. -/
def json_route (lock : LockRead (Option Measurement)) : Option Json :=
  match lock with
  | .poisoned => none
  | .ok (some r) => some r.toJson
  | .ok none => some Json.null

/-- Constant `MASS_UNIT` (main.rs line 19). -/
def MASS_UNIT : String := "μg/m3"

/-- Constant `NUMBER_UNIT` (main.rs line 20). -/
def NUMBER_UNIT : String := "1/cm3"

/-- Constant `PARTICLE_SIZE_UNIT` (main.rs line 21). -/
def PARTICLE_SIZE_UNIT : String := "μm"

/-- One metric series line of the `/metrics` text exposition:
`name{label=value,...} value`. -/
structure MetricLine where
  name : String
  labels : List (String × String)
  value : Val
deriving Repr, DecidableEq

/-- Function `export_measurement` (main.rs lines 184-214), as the list of metric lines
emitted by the `export!` calls, in order: ten measurement lines when a
measurement is present (none otherwise), then the two counter lines always. -/
def export_measurement (measurement : Option Measurement)
    (error_count fatal_error_count : Nat) : List MetricLine :=
  (match measurement with
   | some r =>
     [⟨"sps30_mass_concentration", [("variant", "PM1.0"), ("unit", MASS_UNIT)], r.mass.pm1⟩,
      ⟨"sps30_mass_concentration", [("variant", "PM2.5"), ("unit", MASS_UNIT)], r.mass.pm25⟩,
      ⟨"sps30_mass_concentration", [("variant", "PM4"), ("unit", MASS_UNIT)], r.mass.pm4⟩,
      ⟨"sps30_mass_concentration", [("variant", "PM10"), ("unit", MASS_UNIT)], r.mass.pm10⟩,
      ⟨"sps30_number_concentration", [("variant", "PM0.5"), ("unit", NUMBER_UNIT)], r.number.pm05⟩,
      ⟨"sps30_number_concentration", [("variant", "PM1.0"), ("unit", NUMBER_UNIT)], r.number.pm1⟩,
      ⟨"sps30_number_concentration", [("variant", "PM2.5"), ("unit", NUMBER_UNIT)], r.number.pm25⟩,
      ⟨"sps30_number_concentration", [("variant", "PM4"), ("unit", NUMBER_UNIT)], r.number.pm4⟩,
      ⟨"sps30_number_concentration", [("variant", "PM10"), ("unit", NUMBER_UNIT)], r.number.pm10⟩,
      ⟨"sps30_typical_particle_size", [("unit", PARTICLE_SIZE_UNIT)], r.typical_particle_size⟩]
   | none => [])
  ++ [⟨"sps30_error_count", [], (error_count : Val)⟩,
      ⟨"sps30_fatal_error_count", [], (fatal_error_count : Val)⟩]

/-- The `/metrics` warp handler (main.rs lines 258-265): `read().unwrap()` on
the measurement lock (panic on poison, modelled as `none`), then
`export_measurement` with the two counters loaded. -/
def metrics_route (lock : LockRead (Option Measurement))
    (error_count fatal_error_count : Nat) : Option (List MetricLine) :=
  match lock with
  | .poisoned => none
  | .ok m => some (export_measurement m error_count fatal_error_count)

/-- The shared program state: `latest_reading_lock`, `error_count` and
`fatal_error_count` from main.rs lines 225-227 (the SharedState of the spec). -/
structure SharedState where
  latest : Option Measurement
  error_count : Nat
  fatal_error_count : Nat
deriving Repr, DecidableEq

/-- SharedState at process start (main.rs lines 225-227):
`RwLock::new(None)`, both counters `AtomicUsize::new(0)`. -/
def initialState : SharedState :=
  { latest := none, error_count := 0, fatal_error_count := 0 }

/-- Classification of one `sps30.read_measurement()` call (main.rs lines
149-174): `Ok(data)`, `Err(Error::EmptyResult)`, or any other `Err`. -/
inductive ReadOutcome where
  | success (data : Fin 10 → Val) : ReadOutcome
  | emptyResult : ReadOutcome
  | otherError : ReadOutcome
deriving DecidableEq

/-- The environment-supplied events of one poll-loop iteration: the value of
the termination flag at the top of the iteration, the read outcome, and
whether `reading_lock.write()` succeeds (is not poisoned). -/
structure PollInput where
  term : Bool
  outcome : ReadOutcome
  writeLockOk : Bool
deriving DecidableEq

/-- The body of one poll-loop iteration after the flag check and sleep
(main.rs lines 149-174): on `Ok(data)` build the Measurement and replace
`latest` under the write lock, or count an error if the lock acquisition
fails; on `Err(EmptyResult)` do nothing; on any other `Err` count an error. -/
def pollStep (s : SharedState) (outcome : ReadOutcome) (writeLockOk : Bool) :
    SharedState :=
  match outcome with
  | .success data =>
    if writeLockOk then
      { s with latest := some (Measurement.from_array data) }
    else
      { s with error_count := s.error_count + 1 }
  | .emptyResult => s
  | .otherError => { s with error_count := s.error_count + 1 }

/-- The code after the poll loop breaks (main.rs lines 177-181):
`stop_measurement()` whose failure is only logged via `error!`, then
`std::process::exit(0)` unconditionally. Returns the exit code and whether
the stop failure was logged. -/
def read_thread_epilogue (stop_measurement_ok : Bool) : Nat × Bool :=
  (0, !stop_measurement_ok)

/-- The poll loop (main.rs lines 138-181) driven by a finite trace of
per-iteration inputs. Each iteration first loads the termination flag: if
set, the loop breaks and the epilogue runs (`some exitCode`); otherwise the
body runs and the loop continues. `none` means the trace ended with the loop
still running (the real loop is unbounded). -/
def read_thread_run (stop_measurement_ok : Bool) (s : SharedState) :
    List PollInput → SharedState × Option Nat
  | [] => (s, none)
  | i :: rest =>
    if i.term then
      (s, some (read_thread_epilogue stop_measurement_ok).1)
    else
      read_thread_run stop_measurement_ok (pollStep s i.outcome i.writeLockOk) rest

/-- The step of the startup sequence that failed (main.rs lines 122-135):
serial open (`Uart::with_path`), serial configuration (`set_*` calls), device
`reset`, or `start_measurement`. Each is propagated with `?` before the poll
loop starts. -/
inductive StartupError where
  | serialOpen : StartupError
  | serialConfigure : StartupError
  | reset : StartupError
  | startMeasurement : StartupError
deriving Repr, DecidableEq

/-- Function `read_thread` (main.rs lines 116-182): a startup failure returns `Err`
before the loop touches any shared state; otherwise the poll loop runs. -/
def read_thread (startup : Except StartupError Unit) (stop_measurement_ok : Bool)
    (s : SharedState) (inputs : List PollInput) :
    Except StartupError (SharedState × Option Nat) :=
  match startup with
  | .error e => .error e
  | .ok _ => .ok (read_thread_run stop_measurement_ok s inputs)

/-- The process, from `main` (main.rs lines 218-279), starting at
`initialState`. The closure passed to `thread::spawn` (lines 235-240) runs
`read_thread` and, on `Err`, logs and increments `fatal_error_count`, then
returns normally — so `thread_handle.join()` yields `Ok`, the
`spawn_blocking` task returns it, and the `match` in main takes the `Ok(_)` arm:
`std::process::exit(0)`. On the clean-shutdown path the reader thread itself
already called `std::process::exit(0)` (line 181). Returns the final shared
state and `some exitCode` once the process exits. -/
def process_run (startup : Except StartupError Unit) (stop_measurement_ok : Bool)
    (inputs : List PollInput) : SharedState × Option Nat :=
  match read_thread startup stop_measurement_ok initialState inputs with
  | .error _ =>
    ({ initialState with
        fatal_error_count := initialState.fatal_error_count + 1 }, some 0)
  | .ok (s, some code) => (s, some code)
  | .ok (s, none) => (s, none)

/-- Constant `READ_INTERVAL` (main.rs line 26), in milliseconds. -/
def READ_INTERVAL : Nat := 2000

/-- Rust `Duration::checked_sub`: `some (a - b)` when `b ≤ a`, else `none`. -/
def duration_checked_sub (a b : Nat) : Option Nat :=
  if b ≤ a then some (a - b) else none

/-- The inter-poll pacing of one iteration (main.rs lines 143-147), with
instants as natural numbers of milliseconds. `last_read` is the instant the
previous read attempt started; `now` is the current instant. The loop sleeps
`READ_INTERVAL.checked_sub(last_read.elapsed())` when that is `some`, then
sets `last_read = Instant::now()` and issues the read. Returns the sleep
duration and the instant the next read is issued. -/
def poll_timing (last_read now : Nat) : Nat × Nat :=
  match duration_checked_sub READ_INTERVAL (now - last_read) with
  | some d => (d, now + d)
  | none => (0, now)

/-- Folding the loop body over a list of inputs: the state reached by the
poll loop after processing those iterations without the flag being set. -/
def pollFold (s : SharedState) (l : List PollInput) : SharedState :=
  l.foldl (fun s i => pollStep s i.outcome i.writeLockOk) s

/-- Number of lines of a metrics exposition carrying a given series name. -/
def countName (lines : List MetricLine) (n : String) : Nat :=
  (lines.filter (fun l => l.name = n)).length

/-- Variant labels of the lines of a metrics exposition carrying a given
series name, in emission order. -/
def variantsOf (lines : List MetricLine) (n : String) : List (Option String) :=
  (lines.filter (fun l => l.name = n)).map (fun l => l.labels.lookup ("variant"))

/-- The ten-value series of the scenario in the spec:
`[1.1, 2.2, 3.3, 4.4, 5.5, 6.6, 7.7, 8.8, 9.9, 10.1]`. -/
def scenario_series : Fin 10 → Val :=
  ![1.1, 2.2, 3.3, 4.4, 5.5, 6.6, 7.7, 8.8, 9.9, 10.1]

/-- A sample measurement used to exhibit the serialized field names. -/
def sample_measurement : Measurement :=
  { mass := { pm1 := 1, pm25 := 2, pm4 := 3, pm10 := 4 }
    number := { pm05 := 5, pm1 := 6, pm25 := 7, pm4 := 8, pm10 := 9 }
    typical_particle_size := 10 }

/-- Serving one `/json` request as a transition on the shared state: the
handler body (main.rs lines 247-252) performs only `read()` on the lock, so
the state offered to the next actor is the same; the response is the
handler result. The flag says whether the lock is poisoned. -/
def serve_json (s : SharedState) (poisoned : Bool) :
    SharedState × Option Json :=
  (s, json_route (if poisoned then .poisoned else .ok s.latest))

/-- Serving one `/metrics` request as a transition on the shared state: the
handler body (main.rs lines 258-265) performs only `read()` and two atomic
`load()` calls. -/
def serve_metrics (s : SharedState) (poisoned : Bool) :
    SharedState × Option (List MetricLine) :=
  (s, metrics_route (if poisoned then .poisoned else .ok s.latest)
        s.error_count s.fatal_error_count)

/-- Helper: one loop-body step either keeps `error_count` or adds exactly 1,
and never touches `fatal_error_count`. -/
theorem pollStep_error_count_cases (s : SharedState) (o : ReadOutcome) (w : Bool) :
    ((pollStep s o w).error_count = s.error_count ∨
      (pollStep s o w).error_count = s.error_count + 1) ∧
    (pollStep s o w).fatal_error_count = s.fatal_error_count := by
  cases o with
  | success data => cases w <;> simp [pollStep]
  | emptyResult => simp [pollStep]
  | otherError => simp [pollStep]

/-- Helper: along any run of the poll loop both counters are monotone. -/
theorem read_thread_run_counts_mono (stopOk : Bool) (inputs : List PollInput) :
    ∀ s : SharedState,
      s.error_count ≤ (read_thread_run stopOk s inputs).1.error_count ∧
      s.fatal_error_count ≤ (read_thread_run stopOk s inputs).1.fatal_error_count := by
  induction inputs with
  | nil => intro s; simp [read_thread_run]
  | cons i rest ih =>
    intro s
    by_cases hi : i.term = true
    · simp [read_thread_run, hi]
    · obtain ⟨h1, h2⟩ := pollStep_error_count_cases s i.outcome i.writeLockOk
      obtain ⟨h3, h4⟩ := ih (pollStep s i.outcome i.writeLockOk)
      simp only [read_thread_run, if_neg hi]
      constructor
      · rcases h1 with h | h <;> omega
      · omega

/-- C1: when the startup sequence of read_thread fails, `fatal_error_count`
is incremented by exactly 1 (from 0 to 1) and no non-null `/json` response is
ever served before exit, since `latest` is still absent; however the process
exits with status 0, not a non-zero status: the spawn closure absorbs the
`Err`, `thread_handle.join()` therefore yields `Ok`, and the `Ok(_)` arm of
the final `match` in main runs `std::process::exit(0)`. This contradicts the
claimed (and clearly intended) non-zero exit. -/
theorem c1_startup_failure (e : StartupError) (stopOk : Bool)
    (inputs : List PollInput) :
    process_run (.error e) stopOk inputs =
      ({ latest := none, error_count := 0, fatal_error_count := 1 }, some 0) ∧
    json_route (.ok (process_run (.error e) stopOk inputs).1.latest) =
      some Json.null :=
  ⟨rfl, rfl⟩

/-- C2 counterexample: feeding the scenario series
`[1.1, 2.2, 3.3, 4.4, 5.5, 6.6, 7.7, 8.8, 9.9, 10.1]` makes `/json` return
an object whose particle-size key is `typical_particle_size`; the key
`typicalParticleSize` claimed by the spec does not occur, so the claim as
stated is false at this input. -/
theorem c2_counterexample :
    json_route (.ok (some (Measurement.from_array scenario_series))) =
      some (Json.obj
        [("mass", Json.obj [("pm1", .num 1.1), ("pm25", .num 2.2),
            ("pm4", .num 3.3), ("pm10", .num 4.4)]),
         ("number", Json.obj [("pm05", .num 5.5), ("pm1", .num 6.6),
            ("pm25", .num 7.7), ("pm4", .num 8.8), ("pm10", .num 9.9)]),
         ("typical_particle_size", .num 10.1)]) ∧
    "typicalParticleSize" ∉
      (Measurement.toJson (Measurement.from_array scenario_series)).keys :=
  ⟨rfl, by decide⟩

/-- C2 (amended): the Measurement takes its 4 mass fields from indices 0-3,
its 5 number fields from indices 4-8 and its typical particle size from
index 9, and the scenario series produces the claimed `/json` response with
the particle-size field serialized under the key `typical_particle_size`
(not `typicalParticleSize`). -/
theorem c2_from_array_mapping :
    (∀ arr : Fin 10 → Val,
      Measurement.from_array arr =
        { mass := { pm1 := arr 0, pm25 := arr 1, pm4 := arr 2, pm10 := arr 3 },
          number := { pm05 := arr 4, pm1 := arr 5, pm25 := arr 6,
                      pm4 := arr 7, pm10 := arr 8 },
          typical_particle_size := arr 9 }) ∧
    json_route (.ok (some (Measurement.from_array scenario_series))) =
      some (Json.obj
        [("mass", Json.obj [("pm1", .num 1.1), ("pm25", .num 2.2),
            ("pm4", .num 3.3), ("pm10", .num 4.4)]),
         ("number", Json.obj [("pm05", .num 5.5), ("pm1", .num 6.6),
            ("pm25", .num 7.7), ("pm4", .num 8.8), ("pm10", .num 9.9)]),
         ("typical_particle_size", .num 10.1)]) :=
  ⟨fun _ => rfl, rfl⟩

/-- C3: for every shared state, the `/metrics` rendering with `latest`
present emits exactly 4 mass-concentration lines with variants
PM1.0/PM2.5/PM4/PM10, 5 number-concentration lines with variants
PM0.5/PM1.0/PM2.5/PM4/PM10, and 1 typical-particle-size line, plus the two
counter lines (12 lines in total); with `latest` absent it emits exactly the
two counter lines and nothing else. -/
theorem c3_metrics_lines (r : Measurement) (ec fec : Nat) :
    countName (export_measurement (some r) ec fec) "sps30_mass_concentration" = 4 ∧
    variantsOf (export_measurement (some r) ec fec) "sps30_mass_concentration" =
      [some ("PM1.0"), some ("PM2.5"), some ("PM4"), some ("PM10")] ∧
    countName (export_measurement (some r) ec fec) "sps30_number_concentration" = 5 ∧
    variantsOf (export_measurement (some r) ec fec) "sps30_number_concentration" =
      [some ("PM0.5"), some ("PM1.0"), some ("PM2.5"), some ("PM4"), some ("PM10")] ∧
    countName (export_measurement (some r) ec fec) "sps30_typical_particle_size" = 1 ∧
    countName (export_measurement (some r) ec fec) "sps30_error_count" = 1 ∧
    countName (export_measurement (some r) ec fec) "sps30_fatal_error_count" = 1 ∧
    (export_measurement (some r) ec fec).length = 12 ∧
    export_measurement none ec fec =
      [⟨"sps30_error_count", [], (ec : Val)⟩,
       ⟨"sps30_fatal_error_count", [], (fec : Val)⟩] :=
  ⟨rfl, rfl, rfl, rfl, rfl, rfl, rfl, rfl, rfl⟩

/-- C4 counterexample: a served measurement is returned with top-level keys
`mass`, `number`, `typical_particle_size`; the data-model field name
`typicalParticleSize` never occurs among the keys, so the serialized field
names are not those of the data model as claimed. -/
theorem c4_counterexample :
    json_route (.ok (some sample_measurement)) =
      some (Json.obj
        [("mass", Json.obj [("pm1", .num 1), ("pm25", .num 2),
            ("pm4", .num 3), ("pm10", .num 4)]),
         ("number", Json.obj [("pm05", .num 5), ("pm1", .num 6),
            ("pm25", .num 7), ("pm4", .num 8), ("pm10", .num 9)]),
         ("typical_particle_size", .num 10)]) ∧
    (Measurement.toJson sample_measurement).keys =
      ["mass", "number", "typical_particle_size"] ∧
    "typicalParticleSize" ∉ (Measurement.toJson sample_measurement).keys :=
  ⟨rfl, rfl, by decide⟩

/-- C4 (amended): `/json` returns the JSON null literal when `latest` is
absent (in particular in the initial state, before the first successful
poll), and otherwise the full nested Measurement structure with keys
`mass.pm1/pm25/pm4/pm10`, `number.pm05/pm1/pm25/pm4/pm10` and
`typical_particle_size` (the serde field names; the data model spells the
last one `typicalParticleSize`). -/
theorem c4_json_route_shape (m : Measurement) :
    json_route (.ok none) = some Json.null ∧
    json_route (.ok initialState.latest) = some Json.null ∧
    json_route (.ok (some m)) =
      some (Json.obj
        [("mass", Json.obj [("pm1", .num m.mass.pm1), ("pm25", .num m.mass.pm25),
            ("pm4", .num m.mass.pm4), ("pm10", .num m.mass.pm10)]),
         ("number", Json.obj [("pm05", .num m.number.pm05), ("pm1", .num m.number.pm1),
            ("pm25", .num m.number.pm25), ("pm4", .num m.number.pm4),
            ("pm10", .num m.number.pm10)]),
         ("typical_particle_size", .num m.typical_particle_size)]) :=
  ⟨rfl, rfl, rfl⟩

/-- C5: in one poll-loop iteration, `error_count` increases by exactly 1 on
a RecoverableReadError (any read error other than the empty result) and on a
StateAccessError (write-lock acquisition failure after a successful read),
and is unchanged on a TransientReadError (empty result, which mutates
nothing at all) and on a success whose write goes through. -/
theorem c5_error_count_classification (s : SharedState) (data : Fin 10 → Val)
    (w : Bool) :
    (pollStep s .otherError w).error_count = s.error_count + 1 ∧
    (pollStep s (.success data) false).error_count = s.error_count + 1 ∧
    (pollStep s .emptyResult w).error_count = s.error_count ∧
    pollStep s .emptyResult w = s ∧
    (pollStep s (.success data) true).error_count = s.error_count :=
  ⟨rfl, rfl, rfl, rfl, rfl⟩

/-- C6: when the write-lock acquisition fails after a successful read,
`latest` is left completely unchanged (the fresh reading is discarded),
`error_count` is incremented by 1, and the loop simply continues with the
next iteration — no exit code is produced by this path. -/
theorem c6_lock_failure_nonfatal (stopOk : Bool) (s : SharedState)
    (data : Fin 10 → Val) (rest : List PollInput) :
    (pollStep s (.success data) false).latest = s.latest ∧
    pollStep s (.success data) false =
      { s with error_count := s.error_count + 1 } ∧
    read_thread_run stopOk s (⟨false, .success data, false⟩ :: rest) =
      read_thread_run stopOk { s with error_count := s.error_count + 1 } rest :=
  ⟨rfl, rfl, rfl⟩

/-- C7: the minimum poll interval is enforced from the instant the previous
read attempt started: when less than `READ_INTERVAL` has elapsed since
`last_read`, the loop sleeps exactly the remainder, so the next read is
issued exactly `READ_INTERVAL` after the previous one started. -/
theorem c7_poll_pacing (last_read now : Nat) (h1 : last_read ≤ now)
    (h2 : now - last_read < READ_INTERVAL) :
    (poll_timing last_read now).1 = READ_INTERVAL - (now - last_read) ∧
    (poll_timing last_read now).2 = last_read + READ_INTERVAL := by
  have hle : now - last_read ≤ READ_INTERVAL := Nat.le_of_lt h2
  have heq : poll_timing last_read now =
      (READ_INTERVAL - (now - last_read),
        now + (READ_INTERVAL - (now - last_read))) := by
    unfold poll_timing duration_checked_sub
    rw [if_pos hle]
  rw [heq]
  exact ⟨rfl, by omega⟩

/-- Witness for C7 at `last_read = 1000`, `now = 1500`: the loop sleeps
1500 ms and the next read is issued at instant 3000. -/
theorem c7_poll_pacing_witness :
    (poll_timing 1000 1500).1 = 1500 ∧ (poll_timing 1000 1500).2 = 3000 := by
  have h := c7_poll_pacing 1000 1500 (by decide) (by decide)
  exact ⟨h.1.trans (by decide), h.2.trans (by decide)⟩

/-- C8: once the termination flag is observed at the top of an iteration
(after any prefix of iterations in which it was unset), the loop stops with
the state reached so far — no later input can write to `latest` or any other
field — and the process exits with status 0 regardless of whether the
best-effort `stop_measurement` succeeds; a stop failure is only logged. -/
theorem c8_termination_flag_stops_writes (stopOk : Bool) (s : SharedState)
    (pre : List PollInput) (i : PollInput) (post : List PollInput)
    (hpre : ∀ j ∈ pre, j.term = false) (hi : i.term = true) :
    read_thread_run stopOk s (pre ++ i :: post) = (pollFold s pre, some 0) ∧
    (read_thread_epilogue stopOk).2 = !stopOk := by
  refine ⟨?_, rfl⟩
  revert hpre
  induction pre generalizing s with
  | nil =>
    intro hpre
    simp [read_thread_run, hi, read_thread_epilogue, pollFold]
  | cons j rest ih =>
    intro hpre
    have hj : j.term = false := hpre j (by simp)
    have step := ih (pollStep s j.outcome j.writeLockOk)
      (fun k hk => hpre k (by simp [hk]))
    simpa [read_thread_run, hj, pollFold] using step

/-- Witness for C8: one idle iteration, then the flag is observed; the run
stops with the state of the idle prefix and exit code 0 even though
`stop_measurement` fails (the failure being logged). -/
theorem c8_termination_witness :
    read_thread_run false initialState
      [⟨false, .emptyResult, true⟩, ⟨true, .emptyResult, true⟩] =
      (pollFold initialState [⟨false, .emptyResult, true⟩], some 0) ∧
    (read_thread_epilogue false).2 = !false :=
  c8_termination_flag_stops_writes false initialState
    [⟨false, .emptyResult, true⟩] ⟨true, .emptyResult, true⟩ []
    (by decide) rfl

/-- C9: the shared state starts with `latest` absent and both counters 0;
each poll-loop step leaves `error_count` unchanged or adds exactly 1 and
never touches `fatal_error_count`; both counters are monotone along any run
of the loop; and serving an HTTP request (`/json` or `/metrics`) leaves
every field of the shared state unchanged. -/
theorem c9_counters_and_handlers :
    initialState.latest = none ∧
    initialState.error_count = 0 ∧
    initialState.fatal_error_count = 0 ∧
    (∀ (s : SharedState) (o : ReadOutcome) (w : Bool),
      ((pollStep s o w).error_count = s.error_count ∨
        (pollStep s o w).error_count = s.error_count + 1) ∧
      (pollStep s o w).fatal_error_count = s.fatal_error_count) ∧
    (∀ (stopOk : Bool) (s : SharedState) (inputs : List PollInput),
      s.error_count ≤ (read_thread_run stopOk s inputs).1.error_count ∧
      s.fatal_error_count ≤ (read_thread_run stopOk s inputs).1.fatal_error_count) ∧
    (∀ (s : SharedState) (p : Bool),
      (serve_json s p).1 = s ∧ (serve_metrics s p).1 = s) :=
  ⟨rfl, rfl, rfl, pollStep_error_count_cases,
    fun stopOk s inputs => read_thread_run_counts_mono stopOk inputs s,
    fun _ _ => ⟨rfl, rfl⟩⟩

/-- C10: when the shared reader-writer lock is poisoned, both handlers panic
at the `unwrap` of the read-guard result (modelled as producing no response),
and nothing is counted: serving with a poisoned lock yields no response and
leaves the state unchanged. -/
theorem c10_poisoned_lock_panics (s : SharedState) (ec fec : Nat) :
    json_route .poisoned = none ∧
    metrics_route .poisoned ec fec = none ∧
    serve_json s true = (s, none) ∧
    serve_metrics s true = (s, none) :=
  ⟨rfl, rfl, rfl, rfl⟩

end SPS30
